import Mathlib

/-!
Shallow embedding of the admission-control, queueing, worker-dispatch and
callback-delivery core of the sync-async-api repository.

Each definition is translated from one source location:
* rate limiter        — src/app/utils/rate_limiter.py
* job queue           — src/app/worker/queue_manager.py
* callback delivery   — src/app/worker/callback.py
* worker loop         — src/app/worker/processor.py
* sync endpoint       — src/app/api/sync_endpoint.py
* async endpoint      — src/app/api/async_endpoint.py
* repository ops      — src/app/db/repository.py

Wall-clock readings (`time.time()`) are modelled as rational-valued inputs,
Python floats as rationals, and the repository as an explicit record store.
-/

namespace SyncAsync

/-! ### Request lifecycle data model (src/app/db/repository.py) -/

/-- The four status strings written by the core. -/
inductive Status
  | pending
  | processing
  | done
  | failed
deriving DecidableEq, Repr

/-- Admission mode of a request (`"sync"` or `"async"`). -/
inductive Mode
  | sync
  | async
deriving DecidableEq, Repr

/-- One row of the `requests` table, restricted to the fields the core
mutates.  `result` abstracts the JSON-serialised result string. -/
structure RequestRecord where
  mode : Mode
  status : Status
  result : Option String
  last_error : Option String
  started_at : Option ℚ
  completed_at : Option ℚ
  attempts : Nat
deriving DecidableEq, Repr

/-- Repository calls the core issues against one request row, in source
order: `create_request`, `update_request_status`, `update_request_result`,
`increment_callback_attempts` (src/app/db/repository.py). -/
inductive StoreOp
  | create (mode : Mode)
  | updateStatus (status : Status) (started_at : Option ℚ) (completed_at : Option ℚ)
  | updateResult (result : Option String) (error : Option String)
  | incrementAttempts (error : Option String)
deriving DecidableEq, Repr

/-- Row state right after `create_request`: status `pending`, no result, no
error, no timestamps.  The `attempts` column starts at 0 (`create_request`
does not set it; the counter is only ever touched by
`increment_callback_attempts`, so its pre-increment value is 0). -/
def newRecord (mode : Mode) : RequestRecord :=
  { mode := mode, status := .pending, result := none, last_error := none,
    started_at := none, completed_at := none, attempts := 0 }

/-- Effect of one repository call on a row.
`update_request_status` only writes `started_at` / `completed_at` when the
corresponding argument is not `None`; `update_request_result` always
overwrites both `result` and `last_error`; `increment_callback_attempts`
adds 1 to `attempts` and overwrites `last_error`. -/
def applyOp (r : RequestRecord) : StoreOp → RequestRecord
  | .create m => newRecord m
  | .updateStatus s st ct =>
      { r with status := s,
               started_at := if st.isSome then st else r.started_at,
               completed_at := if ct.isSome then ct else r.completed_at }
  | .updateResult res err => { r with result := res, last_error := err }
  | .incrementAttempts err => { r with attempts := r.attempts + 1, last_error := err }

/-- Fold a list of repository calls over a row. -/
def applyOps (r : RequestRecord) (ops : List StoreOp) : RequestRecord :=
  ops.foldl applyOp r

/-! ### Rate limiter (src/app/utils/rate_limiter.py) -/

/-- One token bucket: `client_ip -> (tokens, last_update)`. -/
structure Bucket where
  tokens : ℚ
  last_update : ℚ
deriving DecidableEq, Repr

/-- Python `int()` applied to a rational: truncation toward zero. -/
def truncInt (q : ℚ) : ℤ :=
  if 0 ≤ q then ⌊q⌋ else ⌈q⌉

/-- The refill step of `check_rate_limit`:
`tokens = min(max_tokens, tokens + time_passed * refill_rate)` with
`refill_rate = max_tokens / window`. -/
def refilledTokens (maxTokens window : ℚ) (b : Bucket) (now : ℚ) : ℚ :=
  min maxTokens (b.tokens + (now - b.last_update) * (maxTokens / window))

/-- Decision returned by `check_rate_limit`. -/
structure RLResult where
  allowed : Bool
  retry_after : ℤ
deriving DecidableEq, Repr

/-- `RateLimiter.check_rate_limit`.  `bucket` is the stored bucket for the
client (`none` when the client has never been seen); reading a missing key
through the `defaultdict` creates the bucket with full tokens and the clock
value `tcreate` read by the default factory; `now` is the clock read on the
next line.  Returns the decision and the bucket stored after the call: the
allowed branch writes `(tokens - 1, now)` back, the denied branch writes
nothing. -/
def check_rate_limit (maxTokens window : ℚ) (bucket : Option Bucket)
    (tcreate now : ℚ) : RLResult × Bucket :=
  let b := bucket.getD ⟨maxTokens, tcreate⟩
  let tokens := refilledTokens maxTokens window b now
  if 1 ≤ tokens then
    (⟨true, 0⟩, ⟨tokens - 1, now⟩)
  else
    (⟨false, truncInt ((1 - tokens) / (maxTokens / window))⟩, b)

/-- Stored bucket of one client after a sequence of checks, each event being
the pair of clock readings `(tcreate, now)` of that call. -/
def runChecks (maxTokens window : ℚ) : List (ℚ × ℚ) → Option Bucket → Option Bucket
  | [], b => b
  | e :: rest, b =>
      runChecks maxTokens window rest (some (check_rate_limit maxTokens window b e.1 e.2).2)

/-! ### Job queue (src/app/worker/queue_manager.py) -/

/-- A queued job, as built by the async endpoint. -/
structure Job where
  request_id : String
  payload : String
  callback_url : String
deriving DecidableEq, Repr

/-- `QueueManager` state: the `asyncio.Queue` buffer plus the two counters. -/
structure QueueManager where
  queue : List Job
  maxsize : Nat
  total_enqueued : Nat
  total_processed : Nat
deriving DecidableEq, Repr

/-- `asyncio.Queue.put_nowait` raises `QueueFull` exactly when the queue has
a positive `maxsize` and already holds at least that many items. -/
def QueueManager.isFull (qm : QueueManager) : Bool :=
  decide (0 < qm.maxsize) && decide (qm.maxsize ≤ qm.queue.length)

/-- `QueueManager.enqueue`: `put_nowait` then bump `total_enqueued`,
returning `True`; on `QueueFull` return `False` leaving all state as is. -/
def QueueManager.enqueue (qm : QueueManager) (job : Job) : Bool × QueueManager :=
  if qm.isFull then (false, qm)
  else (true, { qm with queue := qm.queue ++ [job],
                        total_enqueued := qm.total_enqueued + 1 })

/-- Snapshot returned by `QueueManager.get_metrics`. -/
structure QueueMetrics where
  current_size : Nat
  max_size : Nat
  total_enqueued : Nat
  total_processed : Nat
deriving DecidableEq, Repr

/-- `QueueManager.get_metrics`. -/
def QueueManager.get_metrics (qm : QueueManager) : QueueMetrics :=
  ⟨qm.queue.length, qm.maxsize, qm.total_enqueued, qm.total_processed⟩

/-! ### Callback delivery (src/app/worker/callback.py) -/

/-- Outcome of one HTTP POST attempt inside `deliver_callback`: a response
with its status code and body text, or one of the three caught exception
classes. -/
inductive AttemptResult
  | response (status : Nat) (text : String)
  | timeoutExc
  | requestError (msg : String)
  | unexpected (msg : String)
deriving DecidableEq, Repr

/-- First 100 characters, Python `s[:100]`. -/
def take100 (s : String) : String :=
  ⟨s.data.take 100⟩

/-- The `try/except` body of one loop iteration of `deliver_callback`:
`none` when the attempt succeeds (`status_code < 400`, the function returns
`(True, None)`), otherwise the error string assigned to `error`. -/
def attemptError (timeout : Nat) : AttemptResult → Option String
  | .response code text =>
      if code < 400 then none
      else some ("HTTP " ++ toString code ++ ": " ++ take100 text)
  | .timeoutExc => some ("Timeout after " ++ toString timeout ++ "s")
  | .requestError m => some ("Request error: " ++ take100 m)
  | .unexpected m => some ("Unexpected error: " ++ take100 m)

/-- The overall-failure message returned after the loop. -/
def failMsg (maxRetries : Nat) (err : String) : String :=
  "Failed after " ++ toString maxRetries ++ " attempts. Last error: " ++ err

/-- Observable outcome of `deliver_callback`: the returned pair, plus the
number of POST attempts performed and the seconds slept between attempts,
in order. -/
structure Delivery where
  success : Bool
  error : Option String
  attempts : Nat
  sleeps : List Nat
deriving DecidableEq, Repr

/-- The `for attempt in range(max_retries)` loop of `deliver_callback`.
`remaining` counts the iterations left, `attempt` is the loop index,
`lastErr` the current value of the local `error` (`none` = not yet
assigned).  Falling off the loop with `error` unassigned (only possible
when `max_retries = 0`) is the `NameError` path, modelled as `none`.
After a failed attempt, the code sleeps `backoff_base ** attempt` only when
`attempt < max_retries - 1`. -/
def deliver_loop (maxRetries base timeout : Nat) (outcomes : Nat → AttemptResult) :
    Nat → Nat → Option String → Option Delivery
  | 0, _, none => none
  | 0, _, some err => some ⟨false, some (failMsg maxRetries err), 0, []⟩
  | r + 1, attempt, _ =>
      match attemptError timeout (outcomes attempt) with
      | none => some ⟨true, none, 1, []⟩
      | some err =>
          match deliver_loop maxRetries base timeout outcomes r (attempt + 1) (some err) with
          | none => none
          | some d =>
              if attempt < maxRetries - 1 then
                some ⟨d.success, d.error, d.attempts + 1, base ^ attempt :: d.sleeps⟩
              else
                some ⟨d.success, d.error, d.attempts + 1, d.sleeps⟩

/-- `deliver_callback`, driven by the per-attempt outcomes of the target. -/
def deliver_callback (maxRetries base timeout : Nat)
    (outcomes : Nat → AttemptResult) : Option Delivery :=
  deliver_loop maxRetries base timeout outcomes maxRetries 0 none

/-! ### Work execution outcomes (shared by both paths) -/

/-- Outcome of `asyncio.wait_for(do_work(payload), timeout=...)`: a result,
`asyncio.TimeoutError`, or any other exception with its message. -/
inductive ExecOutcome
  | success (result : String)
  | timeout
  | fault (msg : String)
deriving DecidableEq, Repr

/-- `f"Work execution timeout after {settings.work_timeout_seconds}s"`. -/
def timeoutErrorMsg (work_timeout_seconds : Nat) : String :=
  "Work execution timeout after " ++ toString work_timeout_seconds ++ "s"

/-- `f"Work execution error: {str(e)}"`. -/
def faultErrorMsg (e : String) : String :=
  "Work execution error: " ++ e

/-! ### Worker loop, one job (src/app/worker/processor.py, lines 29-145) -/

/-- Observables of one pass of `worker_loop` over a dequeued job: the
repository calls issued for that request, and the `status` field of the
callback payload handed to `deliver_callback`. -/
structure WorkerStep where
  ops : List StoreOp
  callbackStatus : Status
deriving DecidableEq, Repr

/-- Processing of one dequeued job by `worker_loop`, given the execution
outcome and the pair `(success, error)` returned by `deliver_callback`.
On success the worker stores the result, marks `done`, delivers the
callback and — only if delivery failed — calls
`increment_callback_attempts`.  On timeout or fault it stores the error,
marks `failed` and delivers the callback, discarding the delivery result
(`await deliver_callback(...)` with no assignment, lines 118 and 142). -/
def worker_process_job (work_timeout : Nat) (exec : ExecOutcome)
    (delivery : Bool × Option String) (t_start t_done : ℚ) : WorkerStep :=
  let processingOp := StoreOp.updateStatus .processing (some t_start) none
  match exec with
  | .success result =>
      { ops := [processingOp,
                .updateResult (some result) none,
                .updateStatus .done none (some t_done)]
              ++ (if delivery.1 then [] else [.incrementAttempts delivery.2]),
        callbackStatus := .done }
  | .timeout =>
      { ops := [processingOp,
                .updateResult none (some (timeoutErrorMsg work_timeout)),
                .updateStatus .failed none (some t_done)],
        callbackStatus := .failed }
  | .fault e =>
      { ops := [processingOp,
                .updateResult none (some (faultErrorMsg e)),
                .updateStatus .failed none (some t_done)],
        callbackStatus := .failed }

/-! ### Sync endpoint (src/app/api/sync_endpoint.py) -/

/-- Observables of one call to `sync_endpoint`: whether the 503 guard
rejected it, the repository calls issued, whether `do_work` was invoked,
and the status/error of the returned `SyncResponse`. -/
structure SyncStep where
  rejected : Bool
  ops : List StoreOp
  engineInvoked : Bool
  respStatus : Option Status
  respError : Option String
deriving DecidableEq, Repr

/-- `sync_endpoint`.  `semValue` is the semaphore's internal counter, i.e.
`max_sync_concurrency` minus the number of permits currently held;
`asyncio.Semaphore.locked()` holds exactly when that counter is 0, so the
guard `sync_semaphore.locked() and sync_semaphore._value == 0` reduces to
`semValue = 0`, raising HTTP 503 before any repository call and before
`do_work`. -/
def sync_endpoint (semValue work_timeout : Nat) (exec : ExecOutcome)
    (t_start t_done : ℚ) : SyncStep :=
  if semValue = 0 then
    { rejected := true, ops := [], engineInvoked := false,
      respStatus := none, respError := none }
  else
    let prelude_ : List StoreOp :=
      [.create .sync, .updateStatus .processing (some t_start) none]
    match exec with
    | .success result =>
        { rejected := false,
          ops := prelude_ ++ [.updateResult (some result) none,
                              .updateStatus .done none (some t_done)],
          engineInvoked := true, respStatus := some .done, respError := none }
    | .timeout =>
        { rejected := false,
          ops := prelude_ ++ [.updateResult none (some (timeoutErrorMsg work_timeout)),
                              .updateStatus .failed none (some t_done)],
          engineInvoked := true, respStatus := some .failed,
          respError := some (timeoutErrorMsg work_timeout) }
    | .fault e =>
        { rejected := false,
          ops := prelude_ ++ [.updateResult none (some (faultErrorMsg e)),
                              .updateStatus .failed none (some t_done)],
          engineInvoked := true, respStatus := some .failed,
          respError := some (faultErrorMsg e) }

/-! ### Async endpoint (src/app/api/async_endpoint.py) -/

/-- Observables of one call to `async_endpoint`: the record store after the
call (an association list keyed by request id), the queue state after the
call, the HTTP status of the response (202, 400 or 429), and the accepted
flag. -/
structure AsyncStep where
  store : List (String × RequestRecord)
  qm : QueueManager
  httpStatus : Nat
  accepted : Bool
deriving DecidableEq, Repr

/-- `async_endpoint`: validate the callback URL (reject 400 before any
repository call), create the request record (`pending`), build the job,
enqueue it; on `enqueued = False` raise HTTP 429 — the record just created
is not removed. -/
def async_endpoint (store : List (String × RequestRecord)) (qm : QueueManager)
    (urlValid : Bool) (request_id payload callback_url : String) : AsyncStep :=
  if !urlValid then
    ⟨store, qm, 400, false⟩
  else
    let store2 := (request_id, newRecord .async) :: store
    let job : Job := ⟨request_id, payload, callback_url⟩
    let step := qm.enqueue job
    if step.1 then ⟨store2, step.2, 202, true⟩
    else ⟨store2, step.2, 429, false⟩

/-- Record stored for a given request id. -/
def lookupRecord (store : List (String × RequestRecord)) (id : String) :
    Option RequestRecord :=
  (store.find? (fun p => p.1 = id)).map (fun p => p.2)

/-! ### Status state machine (§4.6 of the spec, checked against the code) -/

/-- Position of a status along `pending → processing → (done | failed)`. -/
def statusRank : Status → Nat
  | .pending => 0
  | .processing => 1
  | .done => 2
  | .failed => 2

/-- `done` and `failed` are the terminal states. -/
def isTerminal : Status → Bool
  | .done => true
  | .failed => true
  | _ => false

/-- The status value a repository call writes, if any (`create_request`
writes `pending`). -/
def opStatus : StoreOp → Option Status
  | .create _ => some .pending
  | .updateStatus s _ _ => some s
  | _ => none

/-- Sequence of status values written by a list of repository calls. -/
def statusWrites (ops : List StoreOp) : List Status :=
  ops.filterMap opStatus

/-- Forward-only property of a status-write sequence: strictly increasing
rank, terminal states only in last position, and any terminal write is
preceded by a `processing` write. -/
def StatusMonotone (l : List Status) : Prop :=
  l.Chain' (fun a b => statusRank a < statusRank b) ∧
  (∀ i : Fin l.length, isTerminal (l.get i) = true → i.1 = l.length - 1) ∧
  (∀ i : Fin l.length, statusRank (l.get i) = 2 → Status.processing ∈ l.take i.1)

/-! ### Theorems -/

/-- C4: with the Job Queue at its configured capacity, `enqueue` returns
`false` and leaves the queue state (contents, counters) unchanged; and the
capacity-2 scenario: three successive enqueues yield `true, true, false`
with metrics `current_size = 2`, `total_enqueued = 2`. -/
theorem C4_enqueue_at_capacity :
    (∀ (qm : QueueManager) (job : Job), 1 ≤ qm.maxsize →
        qm.queue.length = qm.maxsize → qm.enqueue job = (false, qm)) ∧
    (∀ j1 j2 j3 : Job,
        (QueueManager.enqueue ⟨[], 2, 0, 0⟩ j1).1 = true ∧
        (QueueManager.enqueue (QueueManager.enqueue ⟨[], 2, 0, 0⟩ j1).2 j2).1 = true ∧
        (QueueManager.enqueue
          (QueueManager.enqueue (QueueManager.enqueue ⟨[], 2, 0, 0⟩ j1).2 j2).2 j3).1
            = false ∧
        (QueueManager.enqueue
          (QueueManager.enqueue (QueueManager.enqueue ⟨[], 2, 0, 0⟩ j1).2 j2).2 j3).2.get_metrics
            = ⟨2, 2, 2, 0⟩) := by
  constructor
  · intro qm job hcap hfull
    have hf : qm.isFull = true := by
      simp [QueueManager.isFull, hfull]
      omega
    simp [QueueManager.enqueue, hf]
  · intro j1 j2 j3
    refine ⟨rfl, rfl, rfl, rfl⟩

/-- Witness for C4 at a concrete full queue of capacity 2. -/
theorem C4_enqueue_at_capacity_witness :
    QueueManager.enqueue ⟨[⟨"a", "p", "u"⟩, ⟨"b", "p", "u"⟩], 2, 2, 0⟩ ⟨"c", "p", "u"⟩
      = (false, ⟨[⟨"a", "p", "u"⟩, ⟨"b", "p", "u"⟩], 2, 2, 0⟩) :=
  C4_enqueue_at_capacity.1 ⟨[⟨"a", "p", "u"⟩, ⟨"b", "p", "u"⟩], 2, 2, 0⟩ ⟨"c", "p", "u"⟩
    (by decide) rfl

/-- C5: a sync submission arriving while the held permits equal the
concurrency ceiling (semaphore counter 0) is rejected by the 503 guard
with no repository call and no Work Engine invocation. -/
theorem C5_sync_saturated_rejected (ceilingC held wt : Nat) (exec : ExecOutcome)
    (t1 t2 : ℚ) (h : held = ceilingC) :
    (sync_endpoint (ceilingC - held) wt exec t1 t2).rejected = true ∧
    (sync_endpoint (ceilingC - held) wt exec t1 t2).ops = [] ∧
    (sync_endpoint (ceilingC - held) wt exec t1 t2).engineInvoked = false := by
  subst h
  simp [sync_endpoint]

/-- Witness for C5 with ceiling 1 and one held permit. -/
theorem C5_sync_saturated_rejected_witness :
    (sync_endpoint (1 - 1) 30 .timeout 0 0).rejected = true ∧
    (sync_endpoint (1 - 1) 30 .timeout 0 0).ops = [] ∧
    (sync_endpoint (1 - 1) 30 .timeout 0 0).engineInvoked = false :=
  C5_sync_saturated_rejected 1 1 30 .timeout 0 0 rfl

/-- C10: an async submission rejected because the queue is full (HTTP 429)
leaves the record created at admission in the store with status `pending`,
the queue unchanged, and no queued job carrying that request id. -/
theorem C10_queue_full_record_not_rolled_back
    (store : List (String × RequestRecord)) (qm : QueueManager)
    (rid payload cb : String)
    (hfull : qm.isFull = true)
    (hfresh : ∀ j ∈ qm.queue, j.request_id ≠ rid) :
    (async_endpoint store qm true rid payload cb).httpStatus = 429 ∧
    (async_endpoint store qm true rid payload cb).accepted = false ∧
    lookupRecord (async_endpoint store qm true rid payload cb).store rid
      = some (newRecord .async) ∧
    (newRecord Mode.async).status = .pending ∧
    (async_endpoint store qm true rid payload cb).qm = qm ∧
    (∀ j ∈ (async_endpoint store qm true rid payload cb).qm.queue,
      j.request_id ≠ rid) := by
  have henq : qm.enqueue ⟨rid, payload, cb⟩ = (false, qm) := by
    simp [QueueManager.enqueue, hfull]
  refine ⟨?_, ?_, ?_, rfl, ?_, ?_⟩ <;>
    simp [async_endpoint, henq, lookupRecord, List.find?_cons_of_pos, hfresh];
    exact hfresh

/-- Witness for C10 at a concrete full queue of capacity 1. -/
theorem C10_queue_full_record_not_rolled_back_witness :
    ((⟨[⟨"other", "p", "u"⟩], 1, 1, 0⟩ : QueueManager).isFull = true) ∧
    (async_endpoint [] ⟨[⟨"other", "p", "u"⟩], 1, 1, 0⟩ true "rid" "p" "u").httpStatus
      = 429 ∧
    lookupRecord (async_endpoint [] ⟨[⟨"other", "p", "u"⟩], 1, 1, 0⟩ true "rid" "p" "u").store
      "rid" = some (newRecord .async) :=
  ⟨by decide,
   (C10_queue_full_record_not_rolled_back [] ⟨[⟨"other", "p", "u"⟩], 1, 1, 0⟩
      "rid" "p" "u" (by decide) (by decide)).1,
   (C10_queue_full_record_not_rolled_back [] ⟨[⟨"other", "p", "u"⟩], 1, 1, 0⟩
      "rid" "p" "u" (by decide) (by decide)).2.2.1⟩

lemma statusMonotone_nil : StatusMonotone [] := by
  refine ⟨by simp, ?_, ?_⟩ <;> exact fun i => absurd i.2 (by simp)

lemma statusMonotone_pending : StatusMonotone [.pending] := by
  refine ⟨by simp, ?_, ?_⟩
  · intro i; fin_cases i; decide
  · intro i; fin_cases i; decide

lemma statusMonotone_done : StatusMonotone [.pending, .processing, .done] := by
  refine ⟨?_, ?_, ?_⟩
  · simp [List.chain'_cons, statusRank]
  · intro i; fin_cases i <;> decide
  · intro i; fin_cases i <;> decide

lemma statusMonotone_failed : StatusMonotone [.pending, .processing, .failed] := by
  refine ⟨?_, ?_, ?_⟩
  · simp [List.chain'_cons, statusRank]
  · intro i; fin_cases i <;> decide
  · intro i; fin_cases i <;> decide

/-- C7: every per-record sequence of status writes the core produces —
the sync endpoint's repository calls, admission (`create`) followed by one
worker pass, or admission alone — moves forward along
`pending → processing → (done | failed)`: ranks strictly increase, a
terminal status occurs only as the last write, and every terminal write is
preceded by a `processing` write. -/
theorem C7_status_forward_only (semValue wt : Nat) (execS execW : ExecOutcome)
    (delivOk : Bool) (derr : Option String) (t1 t2 t3 t4 : ℚ) :
    StatusMonotone (statusWrites (sync_endpoint semValue wt execS t1 t2).ops) ∧
    StatusMonotone (statusWrites
      (StoreOp.create .async :: (worker_process_job wt execW (delivOk, derr) t3 t4).ops)) ∧
    StatusMonotone (statusWrites [StoreOp.create .async]) := by
  refine ⟨?_, ?_, ?_⟩
  · match semValue with
    | 0 =>
        cases execS <;>
          simpa [sync_endpoint, statusWrites, opStatus] using statusMonotone_nil
    | n + 1 =>
        have hn : ¬ (n + 1 = 0) := Nat.succ_ne_zero n
        cases execS
        · simpa [sync_endpoint, hn, statusWrites, opStatus] using statusMonotone_done
        · simpa [sync_endpoint, hn, statusWrites, opStatus] using statusMonotone_failed
        · simpa [sync_endpoint, hn, statusWrites, opStatus] using statusMonotone_failed
  · cases execW
    · cases delivOk <;>
        simpa [worker_process_job, statusWrites, opStatus] using statusMonotone_done
    · simpa [worker_process_job, statusWrites, opStatus] using statusMonotone_failed
    · simpa [worker_process_job, statusWrites, opStatus] using statusMonotone_failed
  · simpa [statusWrites, opStatus] using statusMonotone_pending

lemma check_rate_limit_allow (maxT window : ℚ) (b : Option Bucket) (tc now : ℚ)
    (h : 1 ≤ refilledTokens maxT window (b.getD ⟨maxT, tc⟩) now) :
    check_rate_limit maxT window b tc now
      = (⟨true, 0⟩, ⟨refilledTokens maxT window (b.getD ⟨maxT, tc⟩) now - 1, now⟩) := by
  simp only [check_rate_limit]
  rw [if_pos h]

lemma check_rate_limit_deny (maxT window : ℚ) (b : Option Bucket) (tc now : ℚ)
    (h : ¬ 1 ≤ refilledTokens maxT window (b.getD ⟨maxT, tc⟩) now) :
    check_rate_limit maxT window b tc now
      = (⟨false,
          truncInt ((1 - refilledTokens maxT window (b.getD ⟨maxT, tc⟩) now) / (maxT / window))⟩,
         b.getD ⟨maxT, tc⟩) := by
  simp only [check_rate_limit]
  rw [if_neg h]

/-- Witness for C7 at concrete inputs: both paths of a timed-out execution. -/
theorem C7_status_forward_only_witness :
    StatusMonotone (statusWrites (sync_endpoint 1 30 .timeout 0 0).ops) ∧
    StatusMonotone (statusWrites
      (StoreOp.create .async :: (worker_process_job 30 .timeout (true, none) 0 0).ops)) :=
  ⟨(C7_status_forward_only 1 30 .timeout .timeout true none 0 0 0 0).1,
   (C7_status_forward_only 1 30 .timeout .timeout true none 0 0 0 0).2.1⟩

/-- C8 invariant: the stored token count is within `[0, max_tokens]`. -/
def bucketInv (maxT : ℚ) : Option Bucket → Prop
  | none => True
  | some b => 0 ≤ b.tokens ∧ b.tokens ≤ maxT

lemma check_rate_limit_preserves_inv (maxT window : ℚ) (hm : 0 ≤ maxT)
    (b : Option Bucket) (tc now : ℚ) (hb : bucketInv maxT b) :
    bucketInv maxT (some (check_rate_limit maxT window b tc now).2) := by
  have hbase : 0 ≤ (b.getD ⟨maxT, tc⟩).tokens ∧ (b.getD ⟨maxT, tc⟩).tokens ≤ maxT := by
    cases b with
    | none => exact ⟨hm, le_refl maxT⟩
    | some bb => exact hb
  by_cases h : 1 ≤ refilledTokens maxT window (b.getD ⟨maxT, tc⟩) now
  · have hle : refilledTokens maxT window (b.getD ⟨maxT, tc⟩) now ≤ maxT :=
      min_le_left _ _
    rw [check_rate_limit_allow maxT window b tc now h]
    show 0 ≤ refilledTokens maxT window (b.getD ⟨maxT, tc⟩) now - 1 ∧
        refilledTokens maxT window (b.getD ⟨maxT, tc⟩) now - 1 ≤ maxT
    exact ⟨by linarith, by linarith⟩
  · rw [check_rate_limit_deny maxT window b tc now h]
    exact hbase

lemma runChecks_preserves_inv (maxT window : ℚ) (hm : 0 ≤ maxT) :
    ∀ (events : List (ℚ × ℚ)) (b : Option Bucket), bucketInv maxT b →
      bucketInv maxT (runChecks maxT window events b)
  | [], _, hb => hb
  | e :: rest, b, hb =>
      runChecks_preserves_inv maxT window hm rest _
        (check_rate_limit_preserves_inv maxT window hm b e.1 e.2 hb)

/-- C8: after any sequence of rate-limiter checks starting from an absent
bucket, the stored token count lies in the closed interval
`[0, max_tokens]`. -/
theorem C8_token_count_in_bounds (maxT window : ℚ) (events : List (ℚ × ℚ))
    (b : Bucket) (hm : 0 ≤ maxT)
    (h : runChecks maxT window events none = some b) :
    0 ≤ b.tokens ∧ b.tokens ≤ maxT := by
  have hinv := runChecks_preserves_inv maxT window hm events none trivial
  rw [h] at hinv
  exact hinv

/-- Witness for C8: one check by a fresh client with the default settings
stores a bucket with 99 tokens, inside the bounds. -/
theorem C8_token_count_in_bounds_witness :
    (0 : ℚ) ≤ (Bucket.mk 99 0).tokens ∧ (Bucket.mk 99 0).tokens ≤ 100 :=
  C8_token_count_in_bounds 100 60 [(0, 0)] ⟨99, 0⟩ (by norm_num)
    (by
      show some (check_rate_limit 100 60 none 0 0).2 = some ⟨99, 0⟩
      have ht : refilledTokens 100 60 ((none : Option Bucket).getD ⟨100, 0⟩) 0 = 100 := by
        unfold refilledTokens
        norm_num
      rw [check_rate_limit_allow 100 60 none 0 0 (by rw [ht]; norm_num)]
      rw [ht]
      norm_num)

/-- C2 counterexample: with `max_tokens = 100`, `window = 60` and a stored
bucket holding half a token, a denied check reports `retry_after = 0`
(`int()` truncation) while `ceil((1 - tokens) / refill_rate) = 1`. -/
theorem C2_counterexample :
    (check_rate_limit 100 60 (some ⟨1/2, 0⟩) 0 0).1.allowed = false ∧
    (check_rate_limit 100 60 (some ⟨1/2, 0⟩) 0 0).1.retry_after = 0 ∧
    ⌈(1 - refilledTokens 100 60 ⟨1/2, 0⟩ 0) / (100 / 60)⌉ = 1 := by
  have ht : refilledTokens 100 60 ((some (Bucket.mk (1/2) 0)).getD ⟨100, 0⟩) (0 : ℚ)
      = 1/2 := by
    unfold refilledTokens
    rw [Option.getD_some]
    rw [min_eq_right (by norm_num)]
    norm_num
  have hno : ¬ (1 ≤ refilledTokens 100 60 ((some (Bucket.mk (1/2) 0)).getD ⟨100, 0⟩) (0 : ℚ)) := by
    rw [ht]; norm_num
  have hstep := check_rate_limit_deny 100 60 (some ⟨1/2, 0⟩) 0 0 hno
  refine ⟨?_, ?_, ?_⟩
  · rw [hstep]
  · rw [hstep]
    show truncInt ((1 - refilledTokens 100 60 ((some (Bucket.mk (1/2) 0)).getD ⟨100, 0⟩) 0) / (100 / 60)) = 0
    rw [ht]
    unfold truncInt
    rw [if_pos (by norm_num)]
    rw [Int.floor_eq_iff]
    norm_num
  · rw [show refilledTokens 100 60 ⟨1/2, 0⟩ (0 : ℚ)
        = refilledTokens 100 60 ((some (Bucket.mk (1/2) 0)).getD ⟨100, 0⟩) (0 : ℚ) from rfl]
    rw [ht, Int.ceil_eq_iff]
    constructor <;> norm_num

/-- C2 amended: on a denied check, `retry_after` equals
`floor((1 - tokens) / refill_rate)` — Python `int()` truncation of a
nonnegative value — not the ceiling. -/
theorem C2_retry_after_is_floor (maxT window : ℚ) (b : Option Bucket)
    (tc now : ℚ) (hmax : 0 < maxT) (hwin : 0 < window)
    (hdeny : (check_rate_limit maxT window b tc now).1.allowed = false) :
    (check_rate_limit maxT window b tc now).1.retry_after
      = ⌊(1 - refilledTokens maxT window (b.getD ⟨maxT, tc⟩) now) / (maxT / window)⌋ ∧
    0 ≤ (1 - refilledTokens maxT window (b.getD ⟨maxT, tc⟩) now) / (maxT / window) := by
  by_cases h : 1 ≤ refilledTokens maxT window (b.getD ⟨maxT, tc⟩) now
  · rw [check_rate_limit_allow maxT window b tc now h] at hdeny
    exact absurd hdeny (by simp)
  · have hrate : 0 < maxT / window := div_pos hmax hwin
    have harg : 0 ≤ (1 - refilledTokens maxT window (b.getD ⟨maxT, tc⟩) now) / (maxT / window) :=
      div_nonneg (by linarith [not_le.mp h]) (le_of_lt hrate)
    constructor
    · rw [check_rate_limit_deny maxT window b tc now h]
      show truncInt ((1 - refilledTokens maxT window (b.getD ⟨maxT, tc⟩) now) / (maxT / window)) = _
      unfold truncInt
      rw [if_pos harg]
    · exact harg

/-- Witness for C2's amended claim at the counterexample's input. -/
theorem C2_retry_after_is_floor_witness :
    (check_rate_limit 100 60 (some ⟨1/2, 0⟩) 0 0).1.retry_after
      = ⌊(1 - refilledTokens 100 60 ((some (Bucket.mk (1/2) 0)).getD ⟨100, 0⟩) 0) / (100 / 60)⌋ :=
  (C2_retry_after_is_floor 100 60 (some ⟨1/2, 0⟩) 0 0 (by norm_num) (by norm_num)
    (by
      have hno : ¬ (1 ≤ refilledTokens 100 60
          ((some (Bucket.mk (1/2) 0)).getD ⟨100, 0⟩) (0 : ℚ)) := by
        unfold refilledTokens
        rw [Option.getD_some]
        rw [min_eq_right (by norm_num)]
        norm_num
      rw [check_rate_limit_deny 100 60 (some ⟨1/2, 0⟩) 0 0 hno])).1

/-- C9 counterexample: a denied check leaves the stored bucket bit-for-bit
unchanged — here the bucket keeps timestamp 0 and token count 1/2 even
though the check happened at time 1/100 and the refilled count was 31/60 —
so neither the stored token count nor the last-refill timestamp is updated
on a denied check. -/
theorem C9_counterexample :
    (check_rate_limit 100 60 (some ⟨1/2, 0⟩) (1/100) (1/100)).1.allowed = false ∧
    (check_rate_limit 100 60 (some ⟨1/2, 0⟩) (1/100) (1/100)).2 = ⟨1/2, 0⟩ ∧
    refilledTokens 100 60 ⟨1/2, 0⟩ (1/100) = 31/60 ∧
    (Bucket.mk (1/2) 0).last_update ≠ (1/100 : ℚ) ∧
    (Bucket.mk (1/2) 0).tokens ≠ (31/60 : ℚ) := by
  have ht : refilledTokens 100 60 ((some (Bucket.mk (1/2) 0)).getD ⟨100, 1/100⟩)
      (1/100 : ℚ) = 31/60 := by
    unfold refilledTokens
    rw [Option.getD_some]
    rw [min_eq_right (by norm_num)]
    norm_num
  have hno : ¬ (1 ≤ refilledTokens 100 60
      ((some (Bucket.mk (1/2) 0)).getD ⟨100, 1/100⟩) (1/100 : ℚ)) := by
    rw [ht]; norm_num
  have hstep := check_rate_limit_deny 100 60 (some ⟨1/2, 0⟩) (1/100) (1/100) hno
  refine ⟨?_, ?_, ht, by norm_num, by norm_num⟩
  · rw [hstep]
  · rw [hstep]
    exact rfl

/-- C9 amended: a check reads the bucket through the `defaultdict`,
creating it with full tokens and the creation-time clock when absent; the
stored state is rewritten (decremented count, refreshed timestamp) only on
an allowed check, while a denied check leaves the stored bucket
unchanged. -/
theorem C9_bucket_update_only_on_allow (maxT window : ℚ) (b : Option Bucket)
    (tc now : ℚ) :
    (check_rate_limit maxT window none tc now
      = check_rate_limit maxT window (some ⟨maxT, tc⟩) tc now) ∧
    ((check_rate_limit maxT window b tc now).1.allowed = true →
      (check_rate_limit maxT window b tc now).2
        = ⟨refilledTokens maxT window (b.getD ⟨maxT, tc⟩) now - 1, now⟩) ∧
    ((check_rate_limit maxT window b tc now).1.allowed = false →
      (check_rate_limit maxT window b tc now).2 = b.getD ⟨maxT, tc⟩) := by
  refine ⟨rfl, ?_, ?_⟩ <;>
    (intro hall
     by_cases h : 1 ≤ refilledTokens maxT window (b.getD ⟨maxT, tc⟩) now <;>
       simp [check_rate_limit, h] at hall ⊢)

/-- Witness for C9's amended claim: an allowed check writes the refreshed
bucket back. -/
theorem C9_bucket_update_only_on_allow_witness :
    (check_rate_limit 100 60 (some ⟨100, 0⟩) 0 0).2
      = ⟨refilledTokens 100 60 ((some (Bucket.mk 100 0)).getD ⟨100, 0⟩) 0 - 1, 0⟩ :=
  (C9_bucket_update_only_on_allow 100 60 (some ⟨100, 0⟩) 0 0).2.1
    (by
      have ht : (1 : ℚ) ≤ refilledTokens 100 60
          ((some (Bucket.mk 100 0)).getD ⟨100, 0⟩) 0 := by
        unfold refilledTokens
        rw [Option.getD_some]
        norm_num
      rw [check_rate_limit_allow 100 60 (some ⟨100, 0⟩) 0 0 ht])

lemma timeoutErrorMsg_ne_faultErrorMsg (wt : Nat) (e : String) :
    timeoutErrorMsg wt ≠ faultErrorMsg e := by
  intro h
  have h2 := congrArg (fun s => s.data[15]?) h
  simp only [timeoutErrorMsg, faultErrorMsg, String.data_append] at h2
  have hA : ∀ ts : List Char,
      (("Work execution timeout after ".data ++ ts) ++ "s".data)[15]? = some 't' := by
    intro ts
    have h29 : "Work execution timeout after ".data.length = 29 := by decide
    have hlt1 : (15 : Nat) < ("Work execution timeout after ".data ++ ts).length := by
      rw [List.length_append, h29]; omega
    rw [List.getElem?_append_left hlt1]
    have hlt2 : (15 : Nat) < "Work execution timeout after ".data.length := by
      rw [h29]; omega
    rw [List.getElem?_append_left hlt2]
    decide
  have hB : ∀ es : List Char,
      ("Work execution error: ".data ++ es)[15]? = some 'e' := by
    intro es
    have hlt : (15 : Nat) < "Work execution error: ".data.length := by decide
    rw [List.getElem?_append_left hlt]
    decide
  rw [hA, hB] at h2
  exact absurd h2 (by decide)

/-- C6: a work execution exceeding the timeout — on the worker path or on
the sync path — leaves the Request Record with status `failed`, `last_error`
holding the timeout-specific message (non-null), and `completed_at` set;
and that timeout message differs from every generic execution-fault
message. -/
theorem C6_timeout_yields_failed_record (wt sv : Nat) (delivOk : Bool)
    (derr : Option String) (t1 t2 t3 t4 : ℚ) (r0 : RequestRecord)
    (hsv : sv ≠ 0) :
    (applyOps (newRecord .async)
        (worker_process_job wt .timeout (delivOk, derr) t1 t2).ops).status = .failed ∧
    (applyOps (newRecord .async)
        (worker_process_job wt .timeout (delivOk, derr) t1 t2).ops).last_error
      = some (timeoutErrorMsg wt) ∧
    (applyOps (newRecord .async)
        (worker_process_job wt .timeout (delivOk, derr) t1 t2).ops).completed_at
      = some t2 ∧
    (applyOps r0 (sync_endpoint sv wt .timeout t3 t4).ops).status = .failed ∧
    (applyOps r0 (sync_endpoint sv wt .timeout t3 t4).ops).last_error
      = some (timeoutErrorMsg wt) ∧
    (applyOps r0 (sync_endpoint sv wt .timeout t3 t4).ops).completed_at = some t4 ∧
    (∀ e, timeoutErrorMsg wt ≠ faultErrorMsg e) := by
  have hs : sync_endpoint sv wt .timeout t3 t4 =
      { rejected := false,
        ops := [.create .sync, .updateStatus .processing (some t3) none,
                .updateResult none (some (timeoutErrorMsg wt)),
                .updateStatus .failed none (some t4)],
        engineInvoked := true, respStatus := some .failed,
        respError := some (timeoutErrorMsg wt) } := by
    simp only [sync_endpoint]
    rw [if_neg hsv]
    exact rfl
  refine ⟨rfl, rfl, rfl, ?_, ?_, ?_, timeoutErrorMsg_ne_faultErrorMsg wt⟩ <;>
    (rw [hs]; rfl)

/-- Witness for C6 at concrete inputs (timeout 30, semaphore counter 1). -/
theorem C6_timeout_yields_failed_record_witness :
    (applyOps (newRecord .async)
        (worker_process_job 30 .timeout (true, none) 1 2).ops).status = .failed ∧
    (applyOps (newRecord .sync) (sync_endpoint 1 30 .timeout 3 4).ops).status = .failed ∧
    timeoutErrorMsg 30 ≠ faultErrorMsg "division by zero" :=
  ⟨(C6_timeout_yields_failed_record 30 1 true none 1 2 3 4 (newRecord .sync)
      (by decide)).1,
   (C6_timeout_yields_failed_record 30 1 true none 1 2 3 4 (newRecord .sync)
      (by decide)).2.2.2.1,
   (C6_timeout_yields_failed_record 30 1 true none 1 2 3 4 (newRecord .sync)
      (by decide)).2.2.2.2.2.2 "division by zero"⟩

/-- C1 counterexample: execution ended `failed` (a timeout) and callback
delivery ultimately failed, yet the worker leaves the attempt counter at 0
and `last_error` holds the execution error, not the delivery error — the
Request Record is not updated the way the claim requires. -/
theorem C1_counterexample :
    (applyOps (newRecord .async)
        (worker_process_job 30 .timeout
          (false, some (failMsg 3 "Request error: connection refused")) 1 2).ops).attempts
      = 0 ∧
    (applyOps (newRecord .async)
        (worker_process_job 30 .timeout
          (false, some (failMsg 3 "Request error: connection refused")) 1 2).ops).last_error
      = some (timeoutErrorMsg 30) ∧
    ¬ ((applyOps (newRecord .async)
          (worker_process_job 30 .timeout
            (false, some (failMsg 3 "Request error: connection refused")) 1 2).ops).attempts
        = (newRecord Mode.async).attempts + 1 ∧
       (applyOps (newRecord .async)
          (worker_process_job 30 .timeout
            (false, some (failMsg 3 "Request error: connection refused")) 1 2).ops).last_error
        = some (failMsg 3 "Request error: connection refused")) := by
  refine ⟨rfl, rfl, ?_⟩
  rintro ⟨h1, -⟩
  exact absurd h1 (by decide)

/-- C1 amended: when execution ended `done` and delivery ultimately fails,
the worker increments the attempt counter by exactly 1 and stores the
delivery error, leaving the `done` status in place; when execution ended
`failed` (timeout or fault) the delivery result is discarded — the counter
stays 0 and `last_error` keeps the execution error. -/
theorem C1_attempts_incremented_only_on_done (wt : Nat) (res emsg : String)
    (derr : Option String) (t1 t2 : ℚ) :
    ((applyOps (newRecord .async)
        (worker_process_job wt (.success res) (false, derr) t1 t2).ops).status = .done ∧
     (applyOps (newRecord .async)
        (worker_process_job wt (.success res) (false, derr) t1 t2).ops).attempts = 1 ∧
     (applyOps (newRecord .async)
        (worker_process_job wt (.success res) (false, derr) t1 t2).ops).last_error = derr) ∧
    ((applyOps (newRecord .async)
        (worker_process_job wt .timeout (false, derr) t1 t2).ops).status = .failed ∧
     (applyOps (newRecord .async)
        (worker_process_job wt .timeout (false, derr) t1 t2).ops).attempts = 0 ∧
     (applyOps (newRecord .async)
        (worker_process_job wt .timeout (false, derr) t1 t2).ops).last_error
       = some (timeoutErrorMsg wt)) ∧
    ((applyOps (newRecord .async)
        (worker_process_job wt (.fault emsg) (false, derr) t1 t2).ops).status = .failed ∧
     (applyOps (newRecord .async)
        (worker_process_job wt (.fault emsg) (false, derr) t1 t2).ops).attempts = 0 ∧
     (applyOps (newRecord .async)
        (worker_process_job wt (.fault emsg) (false, derr) t1 t2).ops).last_error
       = some (faultErrorMsg emsg)) :=
  ⟨⟨rfl, rfl, rfl⟩, ⟨rfl, rfl, rfl⟩, ⟨rfl, rfl, rfl⟩⟩

/-- The error string captured by the failing attempt `i` (the value the
loop variable `error` holds after iteration `i`). -/
def lastAttemptError (timeout : Nat) (outcomes : Nat → AttemptResult) (i : Nat) : String :=
  (attemptError timeout (outcomes i)).getD ""

lemma deliver_loop_zero_some (maxRetries base timeout : Nat)
    (outcomes : Nat → AttemptResult) (attempt : Nat) (err : String) :
    deliver_loop maxRetries base timeout outcomes 0 attempt (some err)
      = some ⟨false, some (failMsg maxRetries err), 0, []⟩ := rfl

lemma deliver_loop_succ (maxRetries base timeout : Nat)
    (outcomes : Nat → AttemptResult) (r attempt : Nat) (lastErr : Option String) :
    deliver_loop maxRetries base timeout outcomes (r + 1) attempt lastErr
      = match attemptError timeout (outcomes attempt) with
        | none => some ⟨true, none, 1, []⟩
        | some err =>
            match deliver_loop maxRetries base timeout outcomes r (attempt + 1) (some err) with
            | none => none
            | some d =>
                if attempt < maxRetries - 1 then
                  some ⟨d.success, d.error, d.attempts + 1, base ^ attempt :: d.sleeps⟩
                else
                  some ⟨d.success, d.error, d.attempts + 1, d.sleeps⟩ := rfl

lemma deliver_loop_all_fail (maxRetries base timeout : Nat)
    (outcomes : Nat → AttemptResult)
    (hfail : ∀ i, i < maxRetries → (attemptError timeout (outcomes i)).isSome = true) :
    ∀ r attempt, 1 ≤ r → attempt + r = maxRetries → ∀ lastErr,
      deliver_loop maxRetries base timeout outcomes r attempt lastErr =
        some ⟨false,
              some (failMsg maxRetries (lastAttemptError timeout outcomes (maxRetries - 1))),
              r,
              (List.range' attempt (r - 1)).map (fun i => base ^ i)⟩ := by
  intro r
  induction r with
  | zero => intro attempt h1; exact absurd h1 (by omega)
  | succ n ih =>
    intro attempt h1 h2 lastErr
    obtain ⟨err, herr⟩ := Option.isSome_iff_exists.mp (hfail attempt (by omega))
    cases n with
    | zero =>
      have ha : maxRetries - 1 = attempt := by omega
      have hnot : ¬ (attempt < maxRetries - 1) := by omega
      rw [deliver_loop_succ, herr]
      dsimp only
      rw [deliver_loop_zero_some]
      dsimp only
      rw [if_neg hnot]
      simp [lastAttemptError, ha, herr, List.range']
    | succ m =>
      have hlt : attempt < maxRetries - 1 := by omega
      rw [deliver_loop_succ, herr]
      dsimp only
      rw [ih (attempt + 1) (by omega) (by omega) (some err)]
      dsimp only
      rw [if_pos hlt]
      simp only [Nat.succ_sub_one]
      rw [List.range'_succ]
      simp

/-- C3: a callback target failing on every attempt drives `deliver_callback`
through exactly `max_callback_retries` attempts, sleeping
`backoff_base ^ i` seconds after failed attempt `i` for `i = 0 .. R-2`
(none after the last), and the function returns failure carrying the last
observed error; the captured error text is truncated to at most 100
characters. -/
theorem C3_exhausted_delivery_retries (maxRetries base timeout : Nat)
    (outcomes : Nat → AttemptResult) (hR : 1 ≤ maxRetries)
    (hfail : ∀ i, i < maxRetries → (attemptError timeout (outcomes i)).isSome = true) :
    deliver_callback maxRetries base timeout outcomes =
      some ⟨false,
            some (failMsg maxRetries (lastAttemptError timeout outcomes (maxRetries - 1))),
            maxRetries,
            (List.range (maxRetries - 1)).map (fun i => base ^ i)⟩ ∧
    (∀ code text, ¬ code < 400 →
        attemptError timeout (.response code text)
          = some ("HTTP " ++ toString code ++ ": " ++ take100 text) ∧
        (take100 text).length ≤ 100) ∧
    (∀ m, attemptError timeout (.requestError m)
          = some ("Request error: " ++ take100 m) ∧ (take100 m).length ≤ 100) ∧
    (∀ m, attemptError timeout (.unexpected m)
          = some ("Unexpected error: " ++ take100 m) ∧ (take100 m).length ≤ 100) := by
  have hlen : ∀ s : String, (take100 s).length ≤ 100 := by
    intro s
    show (s.data.take 100).length ≤ 100
    rw [List.length_take]
    exact min_le_left _ _
  refine ⟨?_, ?_, ?_, ?_⟩
  · unfold deliver_callback
    rw [deliver_loop_all_fail maxRetries base timeout outcomes hfail maxRetries 0 hR
        (by omega) none]
    rw [List.range_eq_range']
  · intro code text hc
    exact ⟨by simp [attemptError, hc], hlen text⟩
  · intro m
    exact ⟨rfl, hlen m⟩
  · intro m
    exact ⟨rfl, hlen m⟩

/-- Witness for C3: a target answering 500 on every attempt, with the
default settings `R = 3`, `base = 2`, per-attempt timeout 10. -/
theorem C3_exhausted_delivery_retries_witness :
    deliver_callback 3 2 10 (fun _ => .response 500 "oops") =
      some ⟨false,
            some (failMsg 3 (lastAttemptError 10 (fun _ => .response 500 "oops") (3 - 1))),
            3,
            (List.range (3 - 1)).map (fun i => (2 : Nat) ^ i)⟩ :=
  (C3_exhausted_delivery_retries 3 2 10 (fun _ => .response 500 "oops")
    (by omega) (fun _ _ => rfl)).1

end SyncAsync
